import Mathlib

/-!
Verification of the error classifier and result wrappers of the
repository under study (a typed error-mapping layer over the Node.js
filesystem API).

This file embeds the error-classification core (the nine-variant
`FsError` taxonomy and the classifier `mapNodeError` of
`src/errors.ts`), together with representative blocking and
non-blocking call wrappers (`accessSync`, `statSync`, `existsSync` from
the sync layer and `access` from the async layer), and proves the
specified properties about them.

JavaScript runtime values reaching the classifier are modelled as inert
data (`JSValue`): primitives and objects given by their own-property
lists.  An object additionally records whether it is an `instanceof
Error` instance (the `isError` flag), since the fallback branch of
`mapNodeError` inspects `error instanceof Error`, and `Error.prototype`
contributes an inherited empty-string `message` (and a `name`) to the
`in` operator and to member access.  Getters, proxies and callable
properties are outside the model: values are plain data, as are the
failure objects produced by the host filesystem.
-/

/-- Inert model of a JavaScript runtime value: the primitives and plain
objects that can be passed to `mapNodeError(error: unknown, ...)`.
`vObj isError fields` is an object with own properties `fields`;
`isError` records whether the object is an `instanceof Error`
instance. -/
inductive JSValue : Type where
  | vNull : JSValue
  | vUndefined : JSValue
  | vBool : Bool → JSValue
  | vNum : Int → JSValue
  | vStr : String → JSValue
  | vObj : Bool → List (String × JSValue) → JSValue

/-- JavaScript truthiness (`if (x)`, `x && y`, `x || y`). -/
def jsTruthy : JSValue → Bool
  | .vNull => false
  | .vUndefined => false
  | .vBool b => b
  | .vNum n => n ≠ 0
  | .vStr s => s ≠ ""
  | .vObj _ _ => true

/-- JavaScript `typeof` operator. -/
def jsTypeof : JSValue → String
  | .vNull => "object"
  | .vUndefined => "undefined"
  | .vBool _ => "boolean"
  | .vNum _ => "number"
  | .vStr _ => "string"
  | .vObj _ _ => "object"

/-- The JavaScript `in` operator, as in `k in v`: own properties, plus
the `message` and `name` properties inherited from `Error.prototype`
for `Error` instances.  (Applying `in` to a non-object throws, but
`mapNodeError` only reaches it behind a typeof-object guard.) -/
def jsHasProp (v : JSValue) (k : String) : Bool :=
  match v with
  | .vObj isErr fields =>
      (fields.lookup k).isSome || (isErr && (k == "message" || k == "name"))
  | _ => false

/-- JavaScript member access `v.k`: the own property if present, else
the `Error.prototype` defaults (`message = ""`, `name = "Error"`) for
`Error` instances, else `undefined`. -/
def jsProp (v : JSValue) (k : String) : JSValue :=
  match v with
  | .vObj isErr fields =>
      match fields.lookup k with
      | some x => x
      | none =>
          if isErr && k == "message" then .vStr ""
          else if isErr && k == "name" then .vStr "Error"
          else .vUndefined
  | _ => .vUndefined

/-- JavaScript `String(v)` on the values `mapNodeError` ever stringifies
(it guards object stringification behind `error instanceof Error`, so
objects reaching `String()` use the default `Object.prototype.toString`).
For `Error` instances (never stringified by the classifier) we model
`Error.prototype.toString`. -/
def jsToString : JSValue → String
  | .vNull => "null"
  | .vUndefined => "undefined"
  | .vBool true => "true"
  | .vBool false => "false"
  | .vNum n => toString n
  | .vStr s => s
  | .vObj true fields =>
      let name := match fields.lookup "name" with
        | some (.vStr s) => s
        | _ => "Error"
      let msg := match fields.lookup "message" with
        | some (.vStr s) => s
        | _ => ""
      if msg = "" then name else name ++ ": " ++ msg
  | .vObj false _ => "[object Object]"

/-- Test `error instanceof Error`. -/
def isErrorInstance : JSValue → Bool
  | .vObj isErr _ => isErr
  | _ => false

/-- Strict equality of a JavaScript value with a string literal, as
used by the case labels of the `switch` on `nodeErr.code`. -/
def isCode (v : JSValue) (s : String) : Bool :=
  match v with
  | .vStr t => t == s
  | _ => false

/-- The nine error kinds of `FsErrorName` in `src/errors.ts`. -/
inductive FsErrorName : Type where
  | FileNotFoundError
  | PermissionDeniedError
  | DirectoryNotEmptyError
  | FileAlreadyExistsError
  | NotADirectoryError
  | IsADirectoryError
  | InvalidArgumentError
  | IOError
  | UnknownError
deriving DecidableEq

/-- A constructed `FsError` instance.  Each TS error class carries the
fields set by its constructor; a field that the constructor of a class
does not take is recorded as `vUndefined` (absent).  The fields
`message`, `path`, `syscall` and `code` hold the raw runtime values
passed in (the TS string annotations are not enforced at runtime). -/
structure FsError : Type where
  name : FsErrorName
  message : JSValue
  path : JSValue
  syscall : JSValue
  code : JSValue
  cause : JSValue

/-- Constructor call `new FileNotFoundError(message, path, cause)`. -/
def FileNotFoundError (message path cause : JSValue) : FsError :=
  ⟨.FileNotFoundError, message, path, .vUndefined, .vUndefined, cause⟩

/-- Constructor call `new PermissionDeniedError(message, path, cause)`. -/
def PermissionDeniedError (message path cause : JSValue) : FsError :=
  ⟨.PermissionDeniedError, message, path, .vUndefined, .vUndefined, cause⟩

/-- Constructor call `new DirectoryNotEmptyError(message, path, cause)`. -/
def DirectoryNotEmptyError (message path cause : JSValue) : FsError :=
  ⟨.DirectoryNotEmptyError, message, path, .vUndefined, .vUndefined, cause⟩

/-- Constructor call `new FileAlreadyExistsError(message, path, cause)`. -/
def FileAlreadyExistsError (message path cause : JSValue) : FsError :=
  ⟨.FileAlreadyExistsError, message, path, .vUndefined, .vUndefined, cause⟩

/-- Constructor call `new NotADirectoryError(message, path, cause)`. -/
def NotADirectoryError (message path cause : JSValue) : FsError :=
  ⟨.NotADirectoryError, message, path, .vUndefined, .vUndefined, cause⟩

/-- Constructor call `new IsADirectoryError(message, path, cause)`. -/
def IsADirectoryError (message path cause : JSValue) : FsError :=
  ⟨.IsADirectoryError, message, path, .vUndefined, .vUndefined, cause⟩

/-- Constructor call `new InvalidArgumentError(message, path, cause)`. -/
def InvalidArgumentError (message path cause : JSValue) : FsError :=
  ⟨.InvalidArgumentError, message, path, .vUndefined, .vUndefined, cause⟩

/-- Constructor call `new IOError(message, path, syscall, code, cause)`. -/
def IOError (message path syscall code cause : JSValue) : FsError :=
  ⟨.IOError, message, path, syscall, code, cause⟩

/-- Constructor call `new UnknownError(message, cause)` — it takes no path, syscall or code. -/
def UnknownError (message cause : JSValue) : FsError :=
  ⟨.UnknownError, message, .vUndefined, .vUndefined, .vUndefined, cause⟩

/-- The `isNodeError` test of `mapNodeError` (src/errors.ts lines
166-167): the failure is truthy, of typeof object, has a `message`
property (by the `in` operator), and that property holds a string. -/
def isNodeError (error : JSValue) : Bool :=
  jsTruthy error && jsTypeof error == "object" && jsHasProp error "message"
    && jsTypeof (jsProp error "message") == "string"

/-- Evaluation of `path || nodeErr.path`: the contextual optional
string parameter if truthy (present and non-empty), else the own
`path` value of the failure. -/
def jsOrPath : Option String → JSValue → JSValue
  | some s, fallback => if s = "" then fallback else .vStr s
  | none, fallback => fallback

/-- Classifier `mapNodeError` from src/errors.ts lines 162-197: maps an
arbitrary failure value plus an optional context path to an `FsError`. -/
def mapNodeError (error : JSValue) (path : Option String) : FsError :=
  if isNodeError error then
    let message :=
      if jsTruthy (jsProp error "message") then jsProp error "message"
      else .vStr "Unknown error"
    let p := jsOrPath path (jsProp error "path")
    let code := jsProp error "code"
    if isCode code "ENOENT" then FileNotFoundError message p error
    else if isCode code "EACCES" || isCode code "EPERM" then
      PermissionDeniedError message p error
    else if isCode code "ENOTEMPTY" then DirectoryNotEmptyError message p error
    else if isCode code "EEXIST" then FileAlreadyExistsError message p error
    else if isCode code "ENOTDIR" then NotADirectoryError message p error
    else if isCode code "EISDIR" then IsADirectoryError message p error
    else if isCode code "EINVAL" then InvalidArgumentError message p error
    else IOError message p (jsProp error "syscall") (jsProp error "code") error
  else
    UnknownError
      (if isErrorInstance error then jsProp error "message"
       else .vStr (jsToString error))
      error

/-- The `neverthrow` result container: `ok(value)` or `err(error)`.
(External dependency, used only through its two constructors.) -/
inductive Result (α ε : Type) : Type where
  | ok (value : α) : Result α ε
  | err (error : ε) : Result α ε

/-- Outcome of invoking one underlying host-filesystem primitive: it
either returns a value or throws a failure value (for the async layer:
the promise fulfills or rejects). -/
inductive JSOutcome (α : Type) : Type where
  | returns (value : α) : JSOutcome α
  | throws (error : JSValue) : JSOutcome α

/-- Wrapper `accessSync` (sync layer): invoke `fs.accessSync` and
return `ok(undefined)`, or catch the thrown failure and return
`err(mapNodeError(error, path.toString()))`.  The underlying
`fs.accessSync` call is the `prim` parameter. -/
def accessSync (prim : JSOutcome Unit) (path : String) : Result Unit FsError :=
  match prim with
  | .returns _ => .ok ()
  | .throws e => .err (mapNodeError e (some path))

/-- Wrapper `statSync` (sync layer, value-returning): invoke
`fs.statSync` and return `ok(result)`, with the same catch clause as
`accessSync`.  The stat record returned by the host is opaque here. -/
def statSync (prim : JSOutcome JSValue) (path : String) : Result JSValue FsError :=
  match prim with
  | .returns r => .ok r
  | .throws e => .err (mapNodeError e (some path))

/-- Settlement behaviour of `ResultAsync.fromPromise` (external
`neverthrow` dependency): a fulfilled promise becomes `ok`, a rejected
one is passed through the supplied error mapper into `err`. -/
def fromPromise {α : Type} (promise : JSOutcome α) (mapper : JSValue → FsError) :
    Result α FsError :=
  match promise with
  | .returns a => .ok a
  | .throws e => .err (mapper e)

/-- Wrapper `access` (async layer): `ResultAsync.fromPromise` applied
to the `fs.access(path, mode)` promise with the error mapper
`mapNodeError(error, path.toString())`. -/
def access (prim : JSOutcome Unit) (path : String) : Result Unit FsError :=
  fromPromise prim (fun error => mapNodeError error (some path))

/-- Outcome of the raw existence test on the host filesystem: the path
is found, is missing, or the check itself fails unexpectedly. -/
inductive ExistsOutcome : Type where
  | found : ExistsOutcome
  | missing : ExistsOutcome
  | failure (e : JSValue) : ExistsOutcome

/-- Modelled from the spec: the underlying `fs.existsSync` primitive
(from `node:fs`, outside this repository) treats a not-found outcome as
the successful observation `false` rather than a thrown failure: "a
not-found style failure from the underlying check is itself treated
as a successful observation (`false`); only unexpected failures
throw. -/
def fsExistsSyncPrim : ExistsOutcome → JSOutcome Bool
  | .found => .returns true
  | .missing => .returns false
  | .failure e => .throws e

/-- Wrapper `existsSync` (sync layer): return `ok(fs.existsSync(path))`,
or catch the thrown failure and return `err(mapNodeError(error,
path.toString()))`. -/
def existsSync (prim : JSOutcome Bool) (path : String) : Result Bool FsError :=
  match prim with
  | .returns b => .ok b
  | .throws e => .err (mapNodeError e (some path))

/-- Does a `JSValue` hold a string? -/
def JSValue.isStr : JSValue → Bool
  | .vStr _ => true
  | _ => false

/-- The inputs on which the classifier fallback copies a raw message:
`instanceof Error` objects whose own `message` property holds a
non-string value (so the structural `isNodeError` test fails but the
`error instanceof Error` fallback test succeeds). -/
def hasRawNonStringMessage : JSValue → Bool
  | .vObj true fields =>
      match fields.lookup "message" with
      | some m => !m.isStr
      | none => false
  | _ => false

/-- Printable name string of each `FsErrorName`, as carried by the
`name` field of the TS classes. -/
def FsErrorName.str : FsErrorName → String
  | .FileNotFoundError => "FileNotFoundError"
  | .PermissionDeniedError => "PermissionDeniedError"
  | .DirectoryNotEmptyError => "DirectoryNotEmptyError"
  | .FileAlreadyExistsError => "FileAlreadyExistsError"
  | .NotADirectoryError => "NotADirectoryError"
  | .IsADirectoryError => "IsADirectoryError"
  | .InvalidArgumentError => "InvalidArgumentError"
  | .IOError => "IOError"
  | .UnknownError => "UnknownError"

/-- The JS object underlying a constructed `FsError` instance, for
feeding a classifier output back into `mapNodeError`.  The TS error
classes implement the `FsError` interface without extending `Error`, so
the instance is a plain object (`instanceof Error` is `false`) whose own
properties are exactly the class field `name` plus the constructor
parameters of the class in question. -/
def FsError.toJS (e : FsError) : JSValue :=
  match e.name with
  | .UnknownError =>
      .vObj false
        [("name", .vStr "UnknownError"), ("message", e.message),
         ("cause", e.cause)]
  | .IOError =>
      .vObj false
        [("name", .vStr "IOError"), ("message", e.message),
         ("path", e.path), ("syscall", e.syscall), ("code", e.code),
         ("cause", e.cause)]
  | n =>
      .vObj false
        [("name", .vStr n.str), ("message", e.message),
         ("path", e.path), ("cause", e.cause)]

/-- Modelled from the spec: the classification table of §4.1 step 4 in
the specification, read directly from the table there (eight recognized
codes, everything else — including an absent code — falling to
IOError).  Used only to compare the switch inside `mapNodeError`
against the words of the specification. -/
def specClassificationTable (code : JSValue) : FsErrorName :=
  if isCode code "ENOENT" then .FileNotFoundError
  else if isCode code "EACCES" || isCode code "EPERM" then .PermissionDeniedError
  else if isCode code "ENOTEMPTY" then .DirectoryNotEmptyError
  else if isCode code "EEXIST" then .FileAlreadyExistsError
  else if isCode code "ENOTDIR" then .NotADirectoryError
  else if isCode code "EISDIR" then .IsADirectoryError
  else if isCode code "EINVAL" then .InvalidArgumentError
  else .IOError

theorem jsTypeof_string_eq_isStr (m : JSValue) : (jsTypeof m == "string") = m.isStr := by
  cases m <;> rfl

theorem isNodeError_message_str (v : JSValue) (h : isNodeError v = true) :
    ∃ s, jsProp v "message" = .vStr s := by
  have h4 : (jsTypeof (jsProp v "message") == "string") = true := by
    simp only [isNodeError, Bool.and_eq_true] at h
    exact h.2
  rw [jsTypeof_string_eq_isStr] at h4
  cases hm : jsProp v "message" <;> rw [hm] at h4 <;> simp [JSValue.isStr] at h4
  exact ⟨_, rfl⟩

/-- C7: Cause retention — for every input failure and every resulting
variant (including Unknown), the `cause` field of the output equals the
original input failure value (the source passes the original reference
unmodified to every constructor; in this inert-value model reference
identity is value equality). -/
theorem mapNodeError_cause_retention (v : JSValue) (path : Option String) :
    (mapNodeError v path).cause = v := by
  simp only [mapNodeError]
  repeat' split
  all_goals rfl

theorem mapNodeError_fields (v : JSValue) (path : Option String) :
    (mapNodeError v path).cause = v ∧
    (isNodeError v = true →
      (mapNodeError v path).name = specClassificationTable (jsProp v "code") ∧
      (mapNodeError v path).message =
        (if jsTruthy (jsProp v "message") then jsProp v "message"
         else .vStr "Unknown error") ∧
      (mapNodeError v path).path = jsOrPath path (jsProp v "path") ∧
      (mapNodeError v path).syscall =
        (if specClassificationTable (jsProp v "code") = .IOError
         then jsProp v "syscall" else .vUndefined) ∧
      (mapNodeError v path).code =
        (if specClassificationTable (jsProp v "code") = .IOError
         then jsProp v "code" else .vUndefined)) ∧
    (isNodeError v = false →
      (mapNodeError v path).name = .UnknownError ∧
      (mapNodeError v path).message =
        (if isErrorInstance v then jsProp v "message"
         else .vStr (jsToString v)) ∧
      (mapNodeError v path).path = .vUndefined ∧
      (mapNodeError v path).syscall = .vUndefined ∧
      (mapNodeError v path).code = .vUndefined) := by
  by_cases h : isNodeError v = true
  · simp only [mapNodeError, specClassificationTable, h, eq_self_iff_true, if_true]
    repeat' split
    all_goals
      simp_all [FileNotFoundError, PermissionDeniedError, DirectoryNotEmptyError,
        FileAlreadyExistsError, NotADirectoryError, IsADirectoryError,
        InvalidArgumentError, IOError, UnknownError]
  · have h0 : isNodeError v = false := by simpa using h
    simp only [mapNodeError, if_neg h]
    simp_all [UnknownError]

theorem specClassificationTable_ne_unknown (c : JSValue) :
    specClassificationTable c ≠ .UnknownError := by
  unfold specClassificationTable
  repeat' split
  all_goals decide

/-- C5: IOError-only metadata — the `syscall` and `code` fields of the
output are copied verbatim from the failure exactly when the resulting
kind is IOError, and are absent (`undefined`) for every other variant,
even when the input failure carried such fields. -/
theorem mapNodeError_ioerror_only_metadata (v : JSValue) (path : Option String) :
    (mapNodeError v path).syscall =
      (if (mapNodeError v path).name = .IOError then jsProp v "syscall" else .vUndefined) ∧
    (mapNodeError v path).code =
      (if (mapNodeError v path).name = .IOError then jsProp v "code" else .vUndefined) := by
  obtain ⟨-, ht, hf⟩ := mapNodeError_fields v path
  by_cases h : isNodeError v = true
  · obtain ⟨hname, -, -, hsys, hcode⟩ := ht h
    rw [hname, hsys, hcode]
    exact ⟨rfl, rfl⟩
  · obtain ⟨hname, -, -, hsys, hcode⟩ := hf (by simpa using h)
    rw [hname, hsys, hcode]
    simp

theorem isNodeError_obj (b : Bool) (fields : List (String × JSValue)) :
    isNodeError (.vObj b fields) = (jsProp (.vObj b fields) "message").isStr := by
  have h2 : (jsTypeof (.vObj b fields) == "object") = true := rfl
  simp only [isNodeError, jsTruthy, jsHasProp, h2]
  cases hl : fields.lookup "message" with
  | some m =>
      have hp : jsProp (.vObj b fields) "message" = m := by simp [jsProp, hl]
      simp [hp, hl, jsTypeof_string_eq_isStr]
  | none =>
      cases b <;> simp [jsProp, hl, JSValue.isStr, jsTypeof_string_eq_isStr]

/-- C2: Classification-table determinism and exhaustiveness — for every
error-shaped failure, the variant chosen by the switch in `mapNodeError`
is exactly the one given by the classification table of the
specification (the eight recognized codes map to their variants; any
other or absent code maps to IOError), for every context path. -/
theorem mapNodeError_code_table (v : JSValue) (path : Option String)
    (h : isNodeError v = true) :
    (mapNodeError v path).name = specClassificationTable (jsProp v "code") :=
  ((mapNodeError_fields v path).2.1 h).1

/-- Witness for C2 at a concrete ENOENT failure. -/
theorem mapNodeError_code_table_witness :
    isNodeError (.vObj false [("message", .vStr "m"), ("code", .vStr "ENOENT")]) = true ∧
    (mapNodeError (.vObj false [("message", .vStr "m"), ("code", .vStr "ENOENT")]) none).name
      = specClassificationTable
          (jsProp (.vObj false [("message", .vStr "m"), ("code", .vStr "ENOENT")]) "code") :=
  ⟨rfl, mapNodeError_code_table _ none rfl⟩

/-- C6 counterexample: a failure whose `message` field is the non-empty
string "Unknown error" is classified with output message equal to the
fixed literal although the field is not the empty string, refuting the
exactly-when-empty reading of the claim. -/
theorem message_literal_nonempty_cex :
    isNodeError (.vObj false [("message", .vStr "Unknown error")]) = true ∧
    jsProp (.vObj false [("message", .vStr "Unknown error")]) "message" ≠ .vStr "" ∧
    (mapNodeError (.vObj false [("message", .vStr "Unknown error")]) none).message
      = .vStr "Unknown error" := by
  refine ⟨rfl, ?_, rfl⟩
  simp [jsProp, List.lookup]

/-- C6 amended: for every error-shaped failure, the output message is
the message field of the failure when that string is non-empty, and the
fixed literal "Unknown error" when that field is the empty string (the
output may also equal the literal when the field itself holds it). -/
theorem mapNodeError_message_rule_amended (v : JSValue) (path : Option String)
    (s : String) (h : isNodeError v = true) (hm : jsProp v "message" = .vStr s) :
    (mapNodeError v path).message = .vStr (if s = "" then "Unknown error" else s) := by
  obtain ⟨-, ht, -⟩ := mapNodeError_fields v path
  obtain ⟨-, hmsg, -⟩ := ht h
  rw [hmsg, hm]
  by_cases hs : s = "" <;> simp [jsTruthy, hs]

/-- Witness for C6 at a concrete failure with an empty message field. -/
theorem mapNodeError_message_rule_amended_witness :
    isNodeError (.vObj false [("message", .vStr "")]) = true ∧
    jsProp (.vObj false [("message", .vStr "")]) "message" = .vStr "" ∧
    (mapNodeError (.vObj false [("message", .vStr "")]) none).message
      = .vStr (if "" = "" then "Unknown error" else "") :=
  ⟨rfl, rfl, mapNodeError_message_rule_amended _ none "" rfl rfl⟩

/-- C4 counterexample: a non-error-shaped failure (null) classified with
a provided, non-empty contextPath yields the Unknown variant, whose
constructor takes no path at all — so the output path is absent rather
than equal to the contextPath, refuting the every-variant reading of the
claim. -/
theorem unknown_variant_ignores_contextPath_cex :
    (mapNodeError .vNull (some "/x")).name = .UnknownError ∧
    (mapNodeError .vNull (some "/x")).path = .vUndefined ∧
    (mapNodeError .vNull (some "/x")).path ≠ .vStr "/x" := by
  refine ⟨rfl, rfl, ?_⟩
  simp [show (mapNodeError .vNull (some "/x")).path = .vUndefined from rfl]

/-- C4 amended: for every failure classified into the code-table branch
(error-shaped), the output path equals the contextPath when provided and
non-empty, and otherwise equals the own `path` value of the failure
(which is `undefined`, i.e. absent, when no such field is present); for
every non-error-shaped failure the Unknown variant carries no path even
when a contextPath is provided. -/
theorem mapNodeError_path_precedence_amended (v : JSValue) (ctx : Option String) :
    (isNodeError v = true →
      (∀ s : String, ctx = some s → s ≠ "" → (mapNodeError v ctx).path = .vStr s) ∧
      (ctx = none → (mapNodeError v ctx).path = jsProp v "path") ∧
      (ctx = some "" → (mapNodeError v ctx).path = jsProp v "path")) ∧
    (isNodeError v = false → (mapNodeError v ctx).path = .vUndefined) := by
  obtain ⟨-, ht, hf⟩ := mapNodeError_fields v ctx
  refine ⟨fun h => ?_, fun h => (hf h).2.2.1⟩
  obtain ⟨-, -, hpath, -, -⟩ := ht h
  refine ⟨fun s hs hne => ?_, fun hn => ?_, fun he => ?_⟩
  · subst hs; rw [hpath]; simp [jsOrPath, hne]
  · subst hn; rw [hpath]; rfl
  · subst he; rw [hpath]; simp [jsOrPath]

/-- Witness for C4 at a concrete error-shaped failure carrying an
embedded path, classified once with and once without a contextPath. -/
theorem mapNodeError_path_precedence_amended_witness :
    isNodeError (.vObj false [("message", .vStr "m"), ("path", .vStr "/p1")]) = true ∧
    (mapNodeError (.vObj false [("message", .vStr "m"), ("path", .vStr "/p1")])
        (some "/p2")).path = .vStr "/p2" ∧
    (mapNodeError (.vObj false [("message", .vStr "m"), ("path", .vStr "/p1")])
        none).path = jsProp (.vObj false [("message", .vStr "m"), ("path", .vStr "/p1")]) "path" := by
  refine ⟨rfl, ?_, ?_⟩
  · exact ((mapNodeError_path_precedence_amended
      (.vObj false [("message", .vStr "m"), ("path", .vStr "/p1")]) (some "/p2")).1
        rfl).1 "/p2" rfl (by simp)
  · exact ((mapNodeError_path_precedence_amended
      (.vObj false [("message", .vStr "m"), ("path", .vStr "/p1")]) none).1 rfl).2.1 rfl

/-- C3 counterexample: an `instanceof Error` object whose own message
property holds the number 42 is not error-shaped, so it falls to the
Unknown variant; but the fallback copies the raw message field instead
of the stringified form of the failure, refuting the claim that every
non-error-shaped input gets the stringified form as its message. -/
theorem mapNodeError_error_instance_fallback_cex :
    isNodeError (.vObj true [("message", .vNum 42)]) = false ∧
    (mapNodeError (.vObj true [("message", .vNum 42)]) none).name = .UnknownError ∧
    (mapNodeError (.vObj true [("message", .vNum 42)]) none).message = .vNum 42 ∧
    (mapNodeError (.vObj true [("message", .vNum 42)]) none).message
      ≠ .vStr (jsToString (.vObj true [("message", .vNum 42)])) := by
  refine ⟨rfl, rfl, rfl, ?_⟩
  simp [show (mapNodeError (.vObj true [("message", .vNum 42)]) none).message = .vNum 42 from rfl]

/-- C3 amended: detection is structural — the code-table branch is
entered (equivalently, the result is not the Unknown variant) exactly
when the failure is an object whose `message` property (own or
inherited) holds a string; every non-error-shaped failure yields an
Unknown-variant output whose cause is the original failure and whose
message is the stringified form of the failure, except that for an
`instanceof Error` object (necessarily one with a non-string own
message) the raw message field is copied instead. -/
theorem mapNodeError_shape_detection_amended (v : JSValue) (ctx : Option String) :
    (isNodeError v = true ↔
      ∃ b fields, v = .vObj b fields ∧ (jsProp v "message").isStr = true) ∧
    ((mapNodeError v ctx).name = .UnknownError ↔ isNodeError v = false) ∧
    (isNodeError v = false →
      (mapNodeError v ctx).cause = v ∧
      (isErrorInstance v = false →
        (mapNodeError v ctx).message = .vStr (jsToString v)) ∧
      (isErrorInstance v = true →
        (mapNodeError v ctx).message = jsProp v "message")) := by
  obtain ⟨hcause, ht, hf⟩ := mapNodeError_fields v ctx
  refine ⟨?_, ?_, fun h => ⟨hcause, fun hi => ?_, fun hi => ?_⟩⟩
  · constructor
    · intro hh
      cases v with
      | vObj b fields => exact ⟨b, fields, rfl, by rwa [isNodeError_obj] at hh⟩
      | vNull => simp [isNodeError, jsHasProp] at hh
      | vUndefined => simp [isNodeError, jsHasProp] at hh
      | vBool bb => simp [isNodeError, jsHasProp] at hh
      | vNum n => simp [isNodeError, jsHasProp] at hh
      | vStr s => simp [isNodeError, jsHasProp] at hh
    · rintro ⟨b, fields, rfl, hh⟩
      rwa [isNodeError_obj]
  · by_cases h : isNodeError v = true
    · rw [(ht h).1]
      simp [h, specClassificationTable_ne_unknown (jsProp v "code")]
    · have h0 : isNodeError v = false := by simpa using h
      rw [(hf h0).1]
      simp [h0]
  · rw [(hf h).2.1]; simp [hi]
  · rw [(hf h).2.1]; simp [hi]

/-- Witness for C3 at the concrete non-error-shaped failure given by a
plain string. -/
theorem mapNodeError_shape_detection_amended_witness :
    isNodeError (.vStr "plain string") = false ∧
    isErrorInstance (.vStr "plain string") = false ∧
    ((mapNodeError (.vStr "plain string") none).name = .UnknownError ↔
      isNodeError (.vStr "plain string") = false) ∧
    (mapNodeError (.vStr "plain string") none).cause = .vStr "plain string" ∧
    (mapNodeError (.vStr "plain string") none).message
      = .vStr (jsToString (.vStr "plain string")) := by
  refine ⟨rfl, rfl, ?_, ?_, ?_⟩
  · exact (mapNodeError_shape_detection_amended (.vStr "plain string") none).2.1
  · exact ((mapNodeError_shape_detection_amended (.vStr "plain string") none).2.2 rfl).1
  · exact ((mapNodeError_shape_detection_amended (.vStr "plain string") none).2.2 rfl).2.1 rfl

/-- C1 counterexample: an `instanceof Error` object whose own message
property holds the number 42 is classified (the function is total and
returns an Unknown-variant FsError), but the message of the output is
the raw number 42, not a string — refuting the claim that every output
carries a string message. -/
theorem mapNodeError_nonstring_message_cex :
    (mapNodeError (.vObj true [("message", .vNum 42)]) none).name = .UnknownError ∧
    (mapNodeError (.vObj true [("message", .vNum 42)]) none).message = .vNum 42 ∧
    ((mapNodeError (.vObj true [("message", .vNum 42)]) none).message).isStr = false :=
  ⟨rfl, rfl, rfl⟩

/-- C1 amended: totality of the classifier — for every input failure
value and every optional contextPath, `mapNodeError` returns an FsError
bearing one of the nine kind tags and never throws (the embedding is a
total function); its message is a string for every input except an
`instanceof Error` object whose own message property holds a non-string
value, in which case that raw value is copied as the message. -/
theorem mapNodeError_total_amended (v : JSValue) (ctx : Option String) :
    (mapNodeError v ctx).name ∈
      [FsErrorName.FileNotFoundError, FsErrorName.PermissionDeniedError,
       FsErrorName.DirectoryNotEmptyError, FsErrorName.FileAlreadyExistsError,
       FsErrorName.NotADirectoryError, FsErrorName.IsADirectoryError,
       FsErrorName.InvalidArgumentError, FsErrorName.IOError,
       FsErrorName.UnknownError] ∧
    (hasRawNonStringMessage v = false →
      ((mapNodeError v ctx).message).isStr = true) ∧
    (hasRawNonStringMessage v = true →
      (mapNodeError v ctx).message = jsProp v "message") := by
  obtain ⟨-, ht, hf⟩ := mapNodeError_fields v ctx
  refine ⟨?_, fun hraw => ?_, fun hraw => ?_⟩
  · cases hn : (mapNodeError v ctx).name <;> decide
  · by_cases h : isNodeError v = true
    · obtain ⟨s, hs⟩ := isNodeError_message_str v h
      obtain ⟨-, hmsg, -⟩ := ht h
      rw [hmsg, hs]
      split <;> rfl
    · have h0 : isNodeError v = false := by simpa using h
      obtain ⟨-, hmsg, -⟩ := hf h0
      rw [hmsg]
      by_cases hi : isErrorInstance v = true
      · rw [if_pos hi]
        cases v with
        | vObj b fields =>
            cases b with
            | true =>
                cases hl : fields.lookup "message" with
                | some m =>
                    simp [hasRawNonStringMessage, hl] at hraw
                    simp [jsProp, hl, hraw]
                | none => simp [jsProp, hl, JSValue.isStr]
            | false => simp [isErrorInstance] at hi
        | vNull => simp [isErrorInstance] at hi
        | vUndefined => simp [isErrorInstance] at hi
        | vBool bb => simp [isErrorInstance] at hi
        | vNum n => simp [isErrorInstance] at hi
        | vStr s => simp [isErrorInstance] at hi
      · have hi0 : isErrorInstance v = false := by simpa using hi
        rw [if_neg (by simp [hi0])]
        rfl
  · cases v with
    | vObj b fields =>
        cases b with
        | true =>
            cases hl : fields.lookup "message" with
            | some m =>
                have h0 : isNodeError (.vObj true fields) = false := by
                  rw [isNodeError_obj]
                  have hp : jsProp (.vObj true fields) "message" = m := by
                    simp [jsProp, hl]
                  rw [hp]
                  simp [hasRawNonStringMessage, hl] at hraw
                  simp [hraw]
                obtain ⟨-, hmsg, -⟩ := hf h0
                rw [hmsg]
                simp [isErrorInstance]
            | none => simp [hasRawNonStringMessage, hl] at hraw
        | false => simp [hasRawNonStringMessage] at hraw
    | vNull => simp [hasRawNonStringMessage] at hraw
    | vUndefined => simp [hasRawNonStringMessage] at hraw
    | vBool bb => simp [hasRawNonStringMessage] at hraw
    | vNum n => simp [hasRawNonStringMessage] at hraw
    | vStr s => simp [hasRawNonStringMessage] at hraw

/-- Witness for C1 at the concrete failure given by a plain string. -/
theorem mapNodeError_total_amended_witness :
    hasRawNonStringMessage (.vStr "boom") = false ∧
    ((mapNodeError (.vStr "boom") none).message).isStr = true ∧
    (mapNodeError (.vStr "boom") none).name ∈
      [FsErrorName.FileNotFoundError, FsErrorName.PermissionDeniedError,
       FsErrorName.DirectoryNotEmptyError, FsErrorName.FileAlreadyExistsError,
       FsErrorName.NotADirectoryError, FsErrorName.IsADirectoryError,
       FsErrorName.InvalidArgumentError, FsErrorName.IOError,
       FsErrorName.UnknownError] :=
  ⟨rfl, (mapNodeError_total_amended (.vStr "boom") none).2.1 rfl,
   (mapNodeError_total_amended (.vStr "boom") none).1⟩

theorem mapNodeError_obj_no_code (fields : List (String × JSValue))
    (h : isNodeError (.vObj false fields) = true)
    (hc : fields.lookup "code" = none) :
    (mapNodeError (.vObj false fields) none).name = .IOError := by
  obtain ⟨-, ht, -⟩ := mapNodeError_fields (.vObj false fields) none
  rw [(ht h).1]
  have hp : jsProp (.vObj false fields) "code" = .vUndefined := by
    simp [jsProp, hc]
  rw [hp]
  rfl

/-- C10: Non-idempotence under composition — for every error-shaped
failure with code ENOENT and no contextPath, the classifier returns the
FileNotFound variant, but reapplying the classifier to the object
underlying that output (which is error-shaped yet carries no code
field) yields the IOError variant instead. -/
theorem mapNodeError_not_idempotent (v : JSValue)
    (h : isNodeError v = true) (hc : isCode (jsProp v "code") "ENOENT" = true) :
    (mapNodeError v none).name = .FileNotFoundError ∧
    (mapNodeError ((mapNodeError v none).toJS) none).name = .IOError := by
  obtain ⟨-, ht, -⟩ := mapNodeError_fields v none
  obtain ⟨hname, hmsg, -, -, -⟩ := ht h
  have hname1 : (mapNodeError v none).name = .FileNotFoundError := by
    rw [hname]; simp [specClassificationTable, hc]
  refine ⟨hname1, ?_⟩
  obtain ⟨s, hs⟩ := isNodeError_message_str v h
  have hM : ∃ t, (mapNodeError v none).message = .vStr t := by
    rw [hmsg, hs]
    by_cases hts : jsTruthy (.vStr s) = true
    · rw [if_pos hts]; exact ⟨s, rfl⟩
    · rw [if_neg hts]; exact ⟨"Unknown error", rfl⟩
  obtain ⟨t, hMt⟩ := hM
  have htoJS : (mapNodeError v none).toJS =
      .vObj false
        [("name", .vStr "FileNotFoundError"),
         ("message", .vStr t),
         ("path", (mapNodeError v none).path),
         ("cause", (mapNodeError v none).cause)] := by
    simp [FsError.toJS, hname1, hMt, FsErrorName.str]
  rw [htoJS]
  apply mapNodeError_obj_no_code
  · rw [isNodeError_obj]
    simp [jsProp, List.lookup, JSValue.isStr]
  · simp [List.lookup]

/-- Witness for C10 at a concrete ENOENT failure. -/
theorem mapNodeError_not_idempotent_witness :
    isNodeError (.vObj false [("message", .vStr "gone"), ("code", .vStr "ENOENT")]) = true ∧
    isCode (jsProp (.vObj false [("message", .vStr "gone"), ("code", .vStr "ENOENT")]) "code")
      "ENOENT" = true ∧
    ((mapNodeError (.vObj false [("message", .vStr "gone"), ("code", .vStr "ENOENT")])
        none).name = .FileNotFoundError ∧
     (mapNodeError
        ((mapNodeError (.vObj false [("message", .vStr "gone"), ("code", .vStr "ENOENT")])
            none).toJS) none).name = .IOError) :=
  ⟨rfl, rfl,
   mapNodeError_not_idempotent
     (.vObj false [("message", .vStr "gone"), ("code", .vStr "ENOENT")]) rfl rfl⟩

/-- C8: Wrapper invariant — for the representative wrapped primitives
(blocking `accessSync` and `statSync`, non-blocking `access`), a
successful underlying primitive yields an ok result wrapping the
returned value unchanged (including the undefined result of void
operations, modelled as the unit value), and a failing primitive yields
an err result wrapping exactly the classification of the failure with
the wrapper contextPath; by totality of the match, no wrapper re-raises
and no call ends without one of the two outcomes. -/
theorem wrapper_invariant (p : String) (r : JSValue) (e : JSValue) :
    accessSync (.returns ()) p = .ok () ∧
    accessSync (.throws e) p = .err (mapNodeError e (some p)) ∧
    statSync (.returns r) p = .ok r ∧
    statSync (.throws e) p = .err (mapNodeError e (some p)) ∧
    access (.returns ()) p = .ok () ∧
    access (.throws e) p = .err (mapNodeError e (some p)) :=
  ⟨rfl, rfl, rfl, rfl, rfl, rfl⟩

/-- C9: Existence-check special case — for every path, the wrapped
`existsSync` over a missing path returns a success result with value
false (the underlying primitive reports absence as the observation
false, not as a thrown failure); a found path yields success with true;
and only an unexpected failure of the underlying check propagates
through the classifier as an err result. -/
theorem existsSync_missing_path_false (p : String) (e : JSValue) :
    existsSync (fsExistsSyncPrim .missing) p = .ok false ∧
    existsSync (fsExistsSyncPrim .found) p = .ok true ∧
    existsSync (fsExistsSyncPrim (.failure e)) p = .err (mapNodeError e (some p)) :=
  ⟨rfl, rfl, rfl⟩
